import Mathlib

/-!
A verification development for the Express + Mongoose + Multer backend in
`src/index.js`: a product catalog with multipart image upload and a standalone
image asset store.  The JavaScript source is shallowly embedded: route
handlers become pure functions over explicit store / filesystem state, the
Multer upload middleware becomes an `Except`-valued stage run before the
handler, and the Express middleware stack (whose registration order decides
which error handler can answer a failed request) is modelled as an explicit
layer list.  Mongo object ids are modelled as `Nat`, `Date.now()` timestamps
as `Nat` milliseconds, and JS numbers reaching the Product schema as `Int`
(prices, review counts) and `ℚ` (ratings).
-/

namespace Sunglasses

/-- Characters that `parseInt` / `parseFloat` skip before reading a numeral. -/
def jsWhitespace (c : Char) : Bool :=
  c = ' ' || c = '\t' || c = '\n' || c = '\r'

/-- Value of a run of decimal digit characters, most significant first. -/
def decDigitsVal (ds : List Char) : Nat :=
  ds.foldl (fun a c => 10 * a + (c.toNat - 48)) 0

/-- JS `parseInt(s)` at radix 10 (as used for price / originalPrice / reviews
at src/index.js:285-290): skip leading whitespace, read an optional sign and
then the longest run of decimal digits, ignoring any trailing characters;
`none` models `NaN` (no digits).  Hex prefixes and other radices never occur
in this API's inputs and are not modelled. -/
def parseIntJS (s : String) : Option Int :=
  let cs := s.data.dropWhile jsWhitespace
  let signed : Int × List Char :=
    match cs with
    | '-' :: r => (-1, r)
    | '+' :: r => (1, r)
    | r => (1, r)
  let ds := signed.2.takeWhile Char.isDigit
  if ds.isEmpty then none else some (signed.1 * (decDigitsVal ds : Int))

/-- JS `parseFloat(s)` (used for rating at src/index.js:289): skip leading
whitespace, read an optional sign, integer digits, and an optional fraction,
ignoring trailing characters; `none` models `NaN`.  Exponent notation and
`Infinity` never occur in this API's inputs and are not modelled. -/
def parseFloatJS (s : String) : Option ℚ :=
  let cs := s.data.dropWhile jsWhitespace
  let signed : ℚ × List Char :=
    match cs with
    | '-' :: r => (-1, r)
    | '+' :: r => (1, r)
    | r => (1, r)
  let ip := signed.2.takeWhile Char.isDigit
  let rest := signed.2.drop ip.length
  let fp :=
    match rest with
    | '.' :: r => r.takeWhile Char.isDigit
    | _ => []
  if ip.isEmpty && fp.isEmpty then none
  else some (signed.1 * ((decDigitsVal ip : ℚ) + (decDigitsVal fp : ℚ) / ((10 : ℚ) ^ fp.length)))

/-- JS truthiness of an optional multipart text field, as used by
`!!isNew` (src/index.js:291) and `originalPrice ? ... : undefined`
(src/index.js:286): `undefined` and the empty string are falsy, every other
string (including "false" and "0") is truthy. -/
def jsTruthy : Option String → Bool
  | none => false
  | some s => !(s == "")

/-- Whitespace skipped by `JSON.parse` between tokens. -/
def skipWsJson (cs : List Char) : List Char :=
  cs.dropWhile (fun c => c = ' ' || c = '\n' || c = '\t' || c = '\r')

/-- One JSON string literal.  Escape sequences are outside the modelled
subset and map to a parse failure. -/
def parseJsonStringLit : List Char → Option (String × List Char)
  | '"' :: rest =>
    let body := rest.takeWhile (fun c => c ≠ '"' && c ≠ '\\')
    let rest2 := rest.drop body.length
    (match rest2 with
     | '"' :: r => some (String.mk body, r)
     | _ => none)
  | _ => none

/-- Comma-separated JSON string literals up to the closing bracket; the fuel
argument bounds recursion by the input length. -/
def parseJsonArrayGo : Nat → List Char → Option (List String × List Char)
  | 0, _ => none
  | fuel + 1, cs =>
    match parseJsonStringLit (skipWsJson cs) with
    | none => none
    | some (s, rest) =>
      match skipWsJson rest with
      | ']' :: r => some ([s], r)
      | ',' :: r =>
        match parseJsonArrayGo fuel r with
        | none => none
        | some (ss, r2) => some (s :: ss, r2)
      | _ => none

/-- The `JSON.parse(colors)` call at src/index.js:288, restricted to its
intended inputs: a JSON array of escape-free string literals.  Any other
input is a parse failure; in the source such inputs either throw in
`JSON.parse` as well, or produce non-string arrays that no claim exercises. -/
def jsonParseStringArray (s : String) : Option (List String) :=
  match skipWsJson s.data with
  | '[' :: rest =>
    (match skipWsJson rest with
     | ']' :: r => if (skipWsJson r).isEmpty then some [] else none
     | _ =>
       match parseJsonArrayGo (rest.length + 1) rest with
       | none => none
       | some (ss, r) => if (skipWsJson r).isEmpty then some ss else none)
  | _ => none

/-- Node `path.extname` on a basename: the substring from the last dot to the
end; empty when there is no dot or when the only dot is the leading character
(a hidden-file name).  Used at src/index.js:72. -/
def extname (s : String) : String :=
  match ((List.range s.data.length).filter (fun i => s.data.getD i ' ' = '.')).getLast? with
  | none => ""
  | some i => if i = 0 then "" else String.mk (s.data.drop i)

/-- ASCII lowercasing, as JS toLowerCase acts on the filenames this API
sees (src/index.js:72 lowercases the extension before the regex test). -/
def toLowerStr (s : String) : String :=
  String.mk (s.data.map Char.toLower)

/-- Whether `needle` occurs inside `hay` as a contiguous substring. -/
def containsSub (needle hay : String) : Bool :=
  (List.range (hay.data.length + 1)).any (fun i => needle.data.isPrefixOf (hay.data.drop i))

/-- The regex test at src/index.js:71-73: the pattern jpeg|jpg|png is
unanchored, so the test succeeds when any of the three alternatives occurs
anywhere in the string. -/
def filetypesTest (s : String) : Bool :=
  containsSub "jpeg" s || containsSub "jpg" s || containsSub "png" s

/-- A multipart file part as the client sent it: declared original filename,
declared content type, and payload size in bytes. -/
structure IncomingFile where
  originalname : String
  mimetype : String
  size : Nat
deriving DecidableEq, Repr

/-- A file as recorded by the multer disk storage after a successful write:
the generated filename and the path under the upload directory. -/
structure StoredFile where
  filename : String
  path : String
deriving DecidableEq, Repr

/-- The fileFilter of the upload middleware (src/index.js:70-78): accept a
file exactly when the unanchored regex matches both the lowercased extension
of the original name and the declared content type. -/
def fileFilter (f : IncomingFile) : Bool :=
  filetypesTest (toLowerStr (extname f.originalname)) && filetypesTest f.mimetype

/-- The per-file size limit configured at src/index.js:69: 20 MB. -/
def fileSizeLimit : Nat := 20 * 1024 * 1024

/-- The filename generator of the disk storage (src/index.js:62-64): the
`Date.now()` timestamp, a dash, and the client's original filename. -/
def genFilename (ts : Nat) (originalname : String) : String :=
  Nat.repr ts ++ "-" ++ originalname

/-- The upload directory: the UPLOAD_DIR environment variable if set,
otherwise "uploads" (src/index.js:56). -/
def uploadDirOf (env : Option String) : String :=
  Option.getD env "uploads"

/-- The destination callback of the disk storage (src/index.js:55-61): pick
the upload directory and create it when it does not already exist.  The
filesystem's directory set is an explicit list. -/
def destination (env : Option String) (dirs : List String) : String × List String :=
  let uploadDir := uploadDirOf env
  (uploadDir, if dirs.contains uploadDir then dirs else uploadDir :: dirs)

/-- How an upload request can fail inside the multer stage. -/
inductive UploadError
  /-- MulterError LIMIT_FILE_SIZE: a file exceeded `limits.fileSize`. -/
  | limitFileSize
  /-- MulterError LIMIT_UNEXPECTED_FILE: more files on the field than the
  route's maxCount; raised by multer's wrapped file filter before the user
  fileFilter ever sees the extra file. -/
  | limitUnexpectedFile
  /-- The plain Error thrown by the fileFilter at src/index.js:77 for a
  disallowed extension or content type; not a MulterError. -/
  | onlyImages
deriving DecidableEq, Repr

/-- Which upload errors are MulterError instances (src/index.js:83 checks
`err instanceof multer.MulterError`). -/
def isMulterError : UploadError → Bool
  | .limitFileSize => true
  | .limitUnexpectedFile => true
  | .onlyImages => false

/-- One file passing through `upload.array` at position `i`: multer first
checks the files-per-field budget (maxCount), then runs the user fileFilter,
then streams the payload subject to the 20 MB limit, and on success stores it
under the upload directory with the generated name.  `ts i` is the clock at
the time the i-th file's name is generated. -/
def processOneFile (dir : String) (maxCount : Nat) (ts : Nat → Nat) (i : Nat)
    (f : IncomingFile) : Except UploadError StoredFile :=
  if maxCount ≤ i then .error .limitUnexpectedFile
  else if !fileFilter f then .error .onlyImages
  else if fileSizeLimit < f.size then .error .limitFileSize
  else
    let fn := genFilename (ts i) f.originalname
    .ok ⟨fn, dir ++ "/" ++ fn⟩

/-- The multer stage of `upload.array('images', maxCount)` over the files of
the request, in order, starting at position `i`.  The first failing file
aborts the whole request (multer also removes the files already written, so
an aborted upload leaves no stored files for the handler). -/
def uploadArrayGo (dir : String) (maxCount : Nat) (ts : Nat → Nat) :
    Nat → List IncomingFile → Except UploadError (List StoredFile)
  | _, [] => .ok []
  | i, f :: rest =>
    match processOneFile dir maxCount ts i f with
    | .error e => .error e
    | .ok sf =>
      match uploadArrayGo dir maxCount ts (i + 1) rest with
      | .error e => .error e
      | .ok sfs => .ok (sf :: sfs)

/-- The multer stage of `upload.array('images', 10)` used by POST
/api/products (src/index.js:275). -/
def uploadArray (env : Option String) (ts : Nat → Nat) (files : List IncomingFile) :
    Except UploadError (List StoredFile) :=
  uploadArrayGo (uploadDirOf env) 10 ts 0 files

/-- The multer stage of `upload.single('image')` used by POST
/api/uploads-blog and POST /api/images: with no file part the handler sees
`req.file` undefined; with one file the filter and size checks run and, on
success, the blob is written to disk (the filesystem is a list of file
paths). -/
def uploadSingle (env : Option String) (ts : Nat) (fs : List String) :
    Option IncomingFile → Except UploadError (Option StoredFile × List String)
  | none => .ok (none, fs)
  | some f =>
    if !fileFilter f then .error .onlyImages
    else if fileSizeLimit < f.size then .error .limitFileSize
    else
      let fn := genFilename ts f.originalname
      let p := uploadDirOf env ++ "/" ++ fn
      .ok (some ⟨fn, p⟩, p :: fs)

/-- What an error-handling middleware can do with an error: answer the
request, or hand the error on with `next(err)`. -/
inductive MwAction
  | respond (status : Nat) (body : String)
  | passOn
deriving DecidableEq, Repr

/-- The one error-handling middleware of the app (src/index.js:82-93): a
MulterError with code LIMIT_FILE_SIZE is answered with a structured 400; any
non-Multer error is answered with a generic 500; a MulterError with any other
code falls through to the final `next(err)`. -/
def multerErrorMiddleware (e : UploadError) : MwAction :=
  if isMulterError e then
    if e = .limitFileSize then .respond 400 "File too large. Maximum size is 20 MB."
    else .passOn
  else .respond 500 "An unexpected error occurred."

/-- One layer of the Express app stack: either a plain (3-argument)
middleware or route, which Express skips while dispatching an error, or an
error-handling (4-argument) middleware. -/
inductive Layer
  | plain (name : String)
  | errHandler (h : UploadError → MwAction)

/-- The app's middleware and route stack in registration order
(src/index.js lines 13, 15, 82, 216, 275, 325, 363, 391, 434, 480, 512, 550,
570, 573).  The single error handler sits at index 2, before every route. -/
def appStack : List Layer :=
  [ .plain "express.json", .plain "cors",
    .errHandler multerErrorMiddleware,
    .plain "GET /api/products", .plain "POST /api/products",
    .plain "GET /api/products/:id", .plain "PUT /api/products/:id",
    .plain "DELETE /api/products/:id", .plain "POST /api/uploads-blog",
    .plain "POST /api/images", .plain "GET /api/images",
    .plain "DELETE /api/images/:id",
    .plain "static /uploads", .plain "swagger /api-docs" ]

/-- Stack index of the POST /api/products route. -/
def postProductsPos : Nat := 4

/-- Stack index of the POST /api/uploads-blog route. -/
def postUploadsBlogPos : Nat := 8

/-- Stack index of the POST /api/images route. -/
def postImagesPos : Nat := 9

/-- Express error dispatch: after `next(err)` inside some layer, the layers
after it are scanned in order for an error-handling layer; a handler that
responds ends the request, one that passes the error on lets the scan
continue; when no remaining handler responds, the Express default error
handler answers 500. -/
def dispatchError (stack : List Layer) (e : UploadError) : Nat × String :=
  match stack with
  | [] => (500, "Express default error handler")
  | .plain _ :: rest => dispatchError rest e
  | .errHandler h :: rest =>
    match h e with
    | .respond s b => (s, b)
    | .passOn => dispatchError rest e

/-- The response to an error escaping the route at stack index `pos`: only
layers registered after the route can see it. -/
def routeErrorResponse (pos : Nat) (e : UploadError) : Nat × String :=
  dispatchError (appStack.drop (pos + 1)) e

/-- A persisted Product document (schema at src/index.js:27-41).  `id` is the
Mongo object id (modelled as `Nat`), `createdAt` the save-time timestamp. -/
structure Product where
  id : Nat
  name : String
  variant : String
  price : Int
  originalPrice : Option Int
  category : String
  colors : List String
  rating : ℚ
  reviews : Int
  isNew : Bool
  badge : Option String
  createdAt : Nat
  images : List String
deriving DecidableEq, Repr

/-- The multipart text fields of a product-creation request
(src/index.js:277).  `none` models an absent field (`undefined`); a present
field is always a string in a multipart form. -/
structure CreateBody where
  name : Option String
  variant : Option String
  price : Option String
  originalPrice : Option String
  category : Option String
  colors : Option String
  rating : Option String
  reviews : Option String
  isNew : Option String
  badge : Option String
deriving DecidableEq, Repr

/-- Mongoose validation of a `required: true` String path at save time: an
absent value fails the required check, and so does the empty string (the
built-in required validator for strings demands positive length). -/
def requireStr : Option String → Option String
  | none => none
  | some s => if s == "" then none else some s

/-- The `originalPrice ? parseInt(originalPrice) : undefined` expression at
src/index.js:286 combined with the mongoose Number cast at save: a falsy
field (absent or empty) leaves the path undefined; a truthy field must parse,
since casting NaN to a Number path raises a CastError. -/
def origPriceParse : Option String → Option (Option Int)
  | none => some none
  | some s =>
    if s == "" then some none
    else
      match parseIntJS s with
      | none => none
      | some v => some (some v)

/-- Lines 282-296 of src/index.js: assembling productData from the form
fields and saving it.  `none` is any of the errors the route's catch turns
into a 400: `JSON.parse(colors)` throwing, a required field missing or empty,
or a NaN reaching a Number cast (price / originalPrice).  `rating` and
`reviews` fall back to 0 on a failed parse via `|| 0`. -/
def buildProduct (freshId now : Nat) (images : List String) (b : CreateBody) :
    Option Product :=
  match Option.bind b.colors jsonParseStringArray, requireStr b.name,
        requireStr b.variant, requireStr b.category,
        Option.bind b.price parseIntJS, origPriceParse b.originalPrice with
  | some colors, some nm, some vr, some cat, some price, some oP =>
    some { id := freshId, name := nm, variant := vr, price := price,
           originalPrice := oP, category := cat, colors := colors,
           rating := Option.getD (Option.bind b.rating parseFloatJS) 0,
           reviews := Option.getD (Option.bind b.reviews parseIntJS) 0,
           isNew := jsTruthy b.isNew, badge := b.badge,
           createdAt := now, images := images }
  | _, _, _, _, _, _ => none

/-- The outcome of a POST /api/products request: the HTTP status, the created
product when the status is 201, the error body when there is one, and the
product collection after the request. -/
structure PostProductsOut where
  status : Nat
  product? : Option Product
  error? : Option String
  store : List Product
deriving DecidableEq, Repr

/-- The handler body of POST /api/products (src/index.js:275-302), run after
a successful multer stage: map the stored files to their generated filenames,
reject counts outside 2..10 with a 400, otherwise build and save the product
and answer 201 with the saved document.  Any build or save failure is caught
and answered 400. -/
def createProduct (freshId now : Nat) (files : List StoredFile) (b : CreateBody)
    (store : List Product) : PostProductsOut :=
  let images := files.map (fun f => f.filename)
  if images.length < 2 || 10 < images.length then
    { status := 400, product? := none,
      error? := some "Number of images must be between 2 and 10", store := store }
  else
    match buildProduct freshId now images b with
    | none =>
      { status := 400, product? := none,
        error? := some "creation failed in JSON.parse or mongoose validation",
        store := store }
    | some p =>
      { status := 201, product? := some p, error? := none, store := store ++ [p] }

/-- A whole POST /api/products request: the multer stage first; an error
escaping it is dispatched over the layers registered after the route (where
no error handler exists, so the Express default answers 500); otherwise the
handler body runs on the stored files. -/
def postProducts (env : Option String) (ts : Nat → Nat) (freshId now : Nat)
    (files : List IncomingFile) (b : CreateBody) (store : List Product) :
    PostProductsOut :=
  match uploadArray env ts files with
  | .error e =>
    let r := routeErrorResponse postProductsPos e
    { status := r.1, product? := none, error? := some r.2, store := store }
  | .ok stored => createProduct freshId now stored b store

/-- `Product.findById`: the store holds at most one document per id, found by
scanning. -/
def findById (store : List Product) (id : Nat) : Option Product :=
  store.find? (fun p => p.id = id)

/-- GET /api/products/:id (src/index.js:325-334): 404 when the id is absent,
otherwise 200 with the document. -/
def getProductById (store : List Product) (id : Nat) : Nat × Option Product :=
  match findById store id with
  | none => (404, none)
  | some p => (200, some p)

/-- DELETE /api/products/:id (src/index.js:391-400): `findByIdAndDelete`
removes the document when the id exists and the route answers 204 with an
empty body; an absent id answers 404 and leaves the store as it was. -/
def deleteProduct (store : List Product) (id : Nat) : Nat × List Product :=
  match findById store id with
  | none => (404, store)
  | some _ => (204, store.eraseP (fun p => p.id = id))

/-- A persisted Image document (schema at src/index.js:17-25). -/
structure ImageRec where
  id : Nat
  filename : String
  path : String
  createdAt : Nat
deriving DecidableEq, Repr

/-- The outcome of a POST /api/images request. -/
structure ImagesOut where
  status : Nat
  message : String
  image? : Option ImageRec
  url? : Option String
  store : List ImageRec
  fs : List String
deriving DecidableEq, Repr

/-- POST /api/images (src/index.js:480-495) behind `upload.single('image')`:
a multer error escapes to the layers after the route (500 from the default
handler); no file part answers 400; otherwise the metadata document is saved
and the route answers 200 with the document and its derived public URL. -/
def postImages (env : Option String) (ts freshId now : Nat)
    (store : List ImageRec) (fs : List String) (file? : Option IncomingFile) :
    ImagesOut :=
  match uploadSingle env ts fs file? with
  | .error e =>
    let r := routeErrorResponse postImagesPos e
    { status := r.1, message := r.2, image? := none, url? := none,
      store := store, fs := fs }
  | .ok (none, fs2) =>
    { status := 400, message := "No file uploaded", image? := none,
      url? := none, store := store, fs := fs2 }
  | .ok (some sf, fs2) =>
    let img : ImageRec :=
      { id := freshId, filename := sf.filename, path := sf.path, createdAt := now }
    { status := 200, message := "Image uploaded", image? := some img,
      url? := some ("/uploads/" ++ img.filename), store := store ++ [img],
      fs := fs2 }

/-- The outcome of a POST /api/uploads-blog request. -/
structure UploadsBlogOut where
  status : Nat
  message : String
  filename? : Option String
  url? : Option String
  fs : List String
deriving DecidableEq, Repr

/-- POST /api/uploads-blog (src/index.js:434-448) behind
`upload.single('image')`: a multer error escapes to the layers after the
route; no file part answers 400; otherwise 200 with the generated filename
and derived URL, with no metadata document. -/
def postUploadsBlog (env : Option String) (ts : Nat) (fs : List String)
    (file? : Option IncomingFile) : UploadsBlogOut :=
  match uploadSingle env ts fs file? with
  | .error e =>
    let r := routeErrorResponse postUploadsBlogPos e
    { status := r.1, message := r.2, filename? := none, url? := none, fs := fs }
  | .ok (none, fs2) =>
    { status := 400, message := "No file uploaded", filename? := none,
      url? := none, fs := fs2 }
  | .ok (some sf, fs2) =>
    { status := 200, message := "Image uploaded successfully",
      filename? := some sf.filename, url? := some ("/uploads/" ++ sf.filename),
      fs := fs2 }

/-- The outcome of a DELETE /api/images/:id request.  `lateWrite` records
that the unlink callback attempted a second response after the first one was
already sent. -/
structure ImageDeleteOut where
  status : Nat
  message : String
  store : List ImageRec
  fs : List String
  lateWrite : Bool
deriving DecidableEq, Repr

/-- DELETE /api/images/:id (src/index.js:550-568).  `findByIdAndDelete`
answers 404 when the id is absent.  Otherwise the metadata document is
removed, `fs.unlink` is started on `path.join(cwd, image.path)`, and
`res.json('Image deleted')` on line 563 runs in the same synchronous flow —
the unlink callback only fires on a later tick, so when the unlink fails its
`res.status(500)` write finds the response already sent and cannot change it
(response commitment is first write wins).  A missing blob therefore still
yields a 200 body; `lateWrite` is true exactly when the failing callback
attempted the dead 500 write. -/
def deleteImage (cwd : String) (store : List ImageRec) (fs : List String)
    (id : Nat) : ImageDeleteOut :=
  match store.find? (fun i => i.id = id) with
  | none =>
    { status := 404, message := "Image not found", store := store, fs := fs,
      lateWrite := false }
  | some img =>
    let fp := cwd ++ "/" ++ img.path
    { status := 200, message := "Image deleted",
      store := store.eraseP (fun i => i.id = id),
      fs := fs.filter (fun q => q ≠ fp),
      lateWrite := !fs.contains fp }

/-- connectDB (src/index.js:43-52): connect to MongoDB and log the host, or
log the error and exit the process (`none`).  The function performs no reads
or writes against the Product collection — in particular it inserts no seed
documents — so on success the store is exactly what it was. -/
def connectDB (connectOk : Bool) (store : List Product) : Option (List Product) :=
  if connectOk then some store else none

/-- Modelled from the spec's words, for comparison with the source's
`fileFilter`: an extension matches the allow-list jpeg, jpg, png when the
lowercased extension is literally one of them. -/
def specAllowListExt (name : String) : Bool :=
  [".jpeg", ".jpg", ".png"].contains (toLowerStr (extname name))

/-- The generated filenames of a request's files in upload order: the file at
position i is named with the clock value at position i. -/
def uploadNames (ts : Nat → Nat) (files : List IncomingFile) : List String :=
  (List.enumFrom 0 files).map (fun q => genFilename (ts q.1) q.2.originalname)

/-- A concrete valid creation body used by the witnesses.  Its isNew field
carries the textual string "false". -/
def demoBody : CreateBody :=
  { name := some "Aviator", variant := some "Gold", price := some "120",
    originalPrice := some "150", category := some "sunglasses",
    colors := some "[\"black\",\"gold\"]", rating := none,
    reviews := some "12", isNew := some "false", badge := some "hit" }

/-- Two well-formed image files for the witnesses. -/
def demoFiles : List IncomingFile :=
  [⟨"front.png", "image/png", 100⟩, ⟨"side.jpg", "image/jpeg", 200⟩]

/-- A small valid png part. -/
def demoPng : IncomingFile := ⟨"a.png", "image/png", 3⟩

/-- The product that creating demoBody with demoFiles at clock 100+i, fresh
id 7 and save time 50 persists. -/
def demoProd : Product :=
  { id := 7, name := "Aviator", variant := "Gold", price := 120,
    originalPrice := some 150, category := "sunglasses",
    colors := ["black", "gold"], rating := 0, reviews := 12,
    isNew := true, badge := some "hit", createdAt := 50,
    images := ["100-front.png", "101-side.jpg"] }

/-- A pre-existing catalog entry used to observe that failing requests leave
the store untouched. -/
def demoP1 : Product :=
  { id := 1, name := "P1", variant := "V", price := 10, originalPrice := none,
    category := "c", colors := ["black"], rating := 0, reviews := 0,
    isNew := false, badge := none, createdAt := 0, images := ["a", "b"] }

/-- A second pre-existing catalog entry. -/
def demoP2 : Product :=
  { id := 2, name := "P2", variant := "W", price := 20, originalPrice := none,
    category := "c", colors := ["gold"], rating := 0, reviews := 0,
    isNew := false, badge := none, createdAt := 0, images := ["c", "d"] }

theorem digitChar_isDigit (m : Nat) (h : m < 10) : (Nat.digitChar m).isDigit = true := by
  interval_cases m <;> decide

theorem digitChar_val (m : Nat) (h : m < 10) : (Nat.digitChar m).toNat - 48 = m := by
  interval_cases m <;> decide

theorem toDigitsCore_append (f : Nat) : ∀ (n : Nat) (ds : List Char), n < f →
    Nat.toDigitsCore 10 f n ds = Nat.toDigitsCore 10 f n [] ++ ds := by
  induction f with
  | zero => intro n ds h; omega
  | succ f ih =>
    intro n ds h
    simp only [Nat.toDigitsCore]
    by_cases h10 : n / 10 = 0
    · simp [h10]
    · have hpos : 0 < n := by
        rcases Nat.eq_zero_or_pos n with h0 | h0
        · subst h0; simp at h10
        · exact h0
      have hlt : n / 10 < f := by
        have := Nat.div_lt_self hpos (by norm_num : 1 < 10)
        omega
      simp only [h10, if_false]
      rw [ih (n / 10) (Nat.digitChar (n % 10) :: ds) hlt,
          ih (n / 10) [Nat.digitChar (n % 10)] hlt, List.append_assoc,
          List.singleton_append]

theorem toDigitsCore_digits (f : Nat) : ∀ (n : Nat) (ds : List Char),
    (∀ c ∈ ds, c.isDigit = true) →
    ∀ c ∈ Nat.toDigitsCore 10 f n ds, c.isDigit = true := by
  induction f with
  | zero => intro n ds hds; simpa [Nat.toDigitsCore] using hds
  | succ f ih =>
    intro n ds hds
    simp only [Nat.toDigitsCore]
    have hcons : ∀ c ∈ Nat.digitChar (n % 10) :: ds, c.isDigit = true := by
      intro c hc
      rcases List.mem_cons.mp hc with h | h
      · subst h; exact digitChar_isDigit _ (Nat.mod_lt _ (by norm_num))
      · exact hds c h
    by_cases h10 : n / 10 = 0
    · simpa [h10] using hcons
    · simpa [h10] using ih (n / 10) (Nat.digitChar (n % 10) :: ds) hcons

theorem repr_data_eq (n : Nat) : (Nat.repr n).data = Nat.toDigitsCore 10 (n + 1) n [] := rfl

theorem repr_no_dash (n : Nat) : '-' ∉ (Nat.repr n).data := by
  intro hmem
  have h := toDigitsCore_digits (n + 1) n [] (by simp) '-' (repr_data_eq n ▸ hmem)
  simp at h

theorem decDigitsVal_concat (xs : List Char) (c : Char) :
    decDigitsVal (xs ++ [c]) = 10 * decDigitsVal xs + (c.toNat - 48) := by
  simp [decDigitsVal, List.foldl_append]

theorem decDigitsVal_toDigitsCore (f : Nat) : ∀ n : Nat, n < f →
    decDigitsVal (Nat.toDigitsCore 10 f n []) = n := by
  induction f with
  | zero => intro n h; omega
  | succ f ih =>
    intro n h
    simp only [Nat.toDigitsCore]
    by_cases h10 : n / 10 = 0
    · have hlt : n < 10 := by omega
      simp only [h10, if_true]
      simpa [decDigitsVal, digitChar_val (n % 10) (Nat.mod_lt _ (by norm_num))]
        using Nat.mod_eq_of_lt hlt
    · have hpos : 0 < n := by
        rcases Nat.eq_zero_or_pos n with h0 | h0
        · subst h0; simp at h10
        · exact h0
      have hlt : n / 10 < f := by
        have := Nat.div_lt_self hpos (by norm_num : 1 < 10)
        omega
      simp only [h10, if_false]
      rw [toDigitsCore_append f (n / 10) [Nat.digitChar (n % 10)] hlt,
          decDigitsVal_concat, ih (n / 10) hlt,
          digitChar_val (n % 10) (Nat.mod_lt _ (by norm_num))]
      omega

theorem repr_injective {m n : Nat} (h : Nat.repr m = Nat.repr n) : m = n := by
  have hd : (Nat.repr m).data = (Nat.repr n).data := congrArg String.data h
  rw [repr_data_eq, repr_data_eq] at hd
  have hm := decDigitsVal_toDigitsCore (m + 1) m (by omega)
  have hn := decDigitsVal_toDigitsCore (n + 1) n (by omega)
  rw [← hm, ← hn, hd]

theorem append_dash_eq : ∀ (l1 l2 t1 t2 : List Char), '-' ∉ l1 → '-' ∉ l2 →
    l1 ++ '-' :: t1 = l2 ++ '-' :: t2 → l1 = l2 := by
  intro l1
  induction l1 with
  | nil =>
    intro l2 t1 t2 _ h2 h
    cases l2 with
    | nil => rfl
    | cons d l2' =>
      simp only [List.nil_append, List.cons_append, List.cons.injEq] at h
      exact absurd (h.1 ▸ List.mem_cons_self d l2') h2
  | cons c l1' ih =>
    intro l2 t1 t2 h1 h2 h
    cases l2 with
    | nil =>
      simp only [List.nil_append, List.cons_append, List.cons.injEq] at h
      exact absurd (h.1.symm ▸ List.mem_cons_self c l1') h1
    | cons d l2' =>
      simp only [List.cons_append, List.cons.injEq] at h
      have htl := ih l2' t1 t2 (fun hm => h1 (List.mem_cons_of_mem c hm))
        (fun hm => h2 (List.mem_cons_of_mem d hm)) h.2
      rw [h.1, htl]

theorem genFilename_ts_inj {ts1 ts2 : Nat} {a b : String}
    (h : genFilename ts1 a = genFilename ts2 b) : ts1 = ts2 := by
  have hd : (genFilename ts1 a).data = (genFilename ts2 b).data := congrArg String.data h
  simp only [genFilename, String.data_append] at hd
  have hd' : (Nat.repr ts1).data ++ '-' :: a.data = (Nat.repr ts2).data ++ '-' :: b.data := by
    simpa using hd
  have := append_dash_eq (Nat.repr ts1).data (Nat.repr ts2).data a.data b.data
    (repr_no_dash ts1) (repr_no_dash ts2) hd'
  exact repr_injective (by
    cases hrepr : Nat.repr ts1
    cases hrepr2 : Nat.repr ts2
    simp_all [String.ext_iff])

theorem uploadArrayGo_ok (dir : String) (ts : Nat → Nat) :
    ∀ (files : List IncomingFile) (i : Nat), i + files.length ≤ 10 →
    (∀ f ∈ files, fileFilter f = true ∧ f.size ≤ fileSizeLimit) →
    uploadArrayGo dir 10 ts i files =
      .ok ((List.enumFrom i files).map (fun q =>
        ⟨genFilename (ts q.1) q.2.originalname,
         dir ++ "/" ++ genFilename (ts q.1) q.2.originalname⟩)) := by
  intro files
  induction files with
  | nil => intro i _ _; rfl
  | cons f rest ih =>
    intro i hle hall
    have hf := hall f (List.mem_cons_self f rest)
    have hrest : ∀ g ∈ rest, fileFilter g = true ∧ g.size ≤ fileSizeLimit :=
      fun g hg => hall g (List.mem_cons_of_mem f hg)
    have hcount : ¬ (10 ≤ i) := by simp at hle; omega
    simp only [uploadArrayGo, processOneFile, if_neg hcount, hf.1,
      Bool.not_true, Bool.false_eq_true, if_false, if_neg (Nat.not_lt.mpr hf.2)]
    rw [ih (i + 1) (by simp at hle ⊢; omega) hrest]
    simp [List.enumFrom]

theorem buildProduct_ok {freshId now : Nat} {images : List String}
    {b : CreateBody} {p : Product}
    (h : buildProduct freshId now images b = some p) :
    p.images = images ∧ p.id = freshId ∧ p.createdAt = now ∧
    p.isNew = jsTruthy b.isNew := by
  unfold buildProduct at h
  split at h
  · injection h with h
    subst h
    exact ⟨rfl, rfl, rfl, rfl⟩
  · exact absurd h (by simp)

theorem findById_eraseP (id : Nat) : ∀ (store : List Product),
    (store.map Product.id).Nodup →
    findById (store.eraseP (fun p => p.id = id)) id = none := by
  intro store
  induction store with
  | nil => intro _; rfl
  | cons p rest ih =>
    intro hnodup
    rw [List.map_cons, List.nodup_cons] at hnodup
    by_cases hp : p.id = id
    · rw [List.eraseP_cons_of_pos (by simp [hp])]
      refine List.find?_eq_none.mpr ?_
      intro q hq hq'
      exact hnodup.1 (hp ▸ (by simpa using hq') ▸ List.mem_map_of_mem Product.id hq)
    · rw [List.eraseP_cons_of_neg (by simp [hp])]
      unfold findById
      rw [List.find?_cons_of_neg _ (by simp [hp])]
      exact ih hnodup.2

theorem findById_append_fresh (store : List Product) (p : Product)
    (h : ∀ q ∈ store, q.id ≠ p.id) :
    findById (store ++ [p]) p.id = some p := by
  unfold findById
  rw [List.find?_append]
  have hnone : store.find? (fun q => q.id = p.id) = none :=
    List.find?_eq_none.mpr (fun q hq => by simp [h q hq])
  simp [hnone]

theorem createProduct_ok (freshId now : Nat) (files : List StoredFile)
    (b : CreateBody) (store : List Product) (p : Product)
    (h2 : 2 ≤ files.length) (h10 : files.length ≤ 10)
    (hbuild : buildProduct freshId now (files.map (fun f => f.filename)) b = some p) :
    createProduct freshId now files b store =
      { status := 201, product? := some p, error? := none, store := store ++ [p] } := by
  have hlen : (files.map (fun f => f.filename)).length = files.length :=
    List.length_map _ _
  simp only [createProduct]
  rw [if_neg (by simp [hlen]; omega), hbuild]

theorem postProducts_ok (env : Option String) (ts : Nat → Nat) (freshId now : Nat)
    (files : List IncomingFile) (b : CreateBody) (store : List Product) (p : Product)
    (h2 : 2 ≤ files.length) (h10 : files.length ≤ 10)
    (hok : ∀ f ∈ files, fileFilter f = true ∧ f.size ≤ fileSizeLimit)
    (hbuild : buildProduct freshId now (uploadNames ts files) b = some p) :
    postProducts env ts freshId now files b store =
      { status := 201, product? := some p, error? := none, store := store ++ [p] } := by
  unfold postProducts uploadArray
  rw [uploadArrayGo_ok (uploadDirOf env) ts files 0 (by omega) hok]
  refine createProduct_ok freshId now _ b store p ?_ ?_ ?_
  · simpa using h2
  · simpa using h10
  · rw [List.map_map]
    exact hbuild

/-- C1: a product-creation request whose upload succeeds with N image files,
2 ≤ N ≤ 10, and whose form fields are valid, answers 201 with the created
product, appends exactly that product to the store, and the stored images
sequence has length N and lists the generated filenames in upload order. -/
theorem C1_create_stores_images_in_order (env : Option String) (ts : Nat → Nat)
    (freshId now : Nat) (files : List IncomingFile) (b : CreateBody)
    (store : List Product) (p : Product)
    (h2 : 2 ≤ files.length) (h10 : files.length ≤ 10)
    (hok : ∀ f ∈ files, fileFilter f = true ∧ f.size ≤ fileSizeLimit)
    (hbuild : buildProduct freshId now (uploadNames ts files) b = some p) :
    postProducts env ts freshId now files b store =
      { status := 201, product? := some p, error? := none, store := store ++ [p] } ∧
    p.images.length = files.length ∧
    p.images = uploadNames ts files := by
  have hpost := postProducts_ok env ts freshId now files b store p h2 h10 hok hbuild
  have hb := buildProduct_ok hbuild
  refine ⟨hpost, ?_, hb.1⟩
  rw [hb.1]
  simp [uploadNames]

theorem C1_witness :
    postProducts none (fun i => 100 + i) 7 50 demoFiles demoBody [] =
      { status := 201, product? := some demoProd, error? := none,
        store := [] ++ [demoProd] } ∧
    demoProd.images.length = demoFiles.length ∧
    demoProd.images = uploadNames (fun i => 100 + i) demoFiles :=
  C1_create_stores_images_in_order none (fun i => 100 + i) 7 50 demoFiles demoBody
    [] demoProd (by decide) (by decide) (by decide) (by decide)

/-- C2: the claim predicts a 400 for any out-of-range file count, but a
request with 11 attached files is aborted by multer with
LIMIT_UNEXPECTED_FILE before the handler's count check can run, and no layer
after the route handles errors, so the Express default handler answers 500
(the store is indeed left unchanged).  For one file the handler's own check
does answer 400 with the store unchanged. -/
theorem C2_image_count_eval :
    postProducts none (fun i => i) 9 9 (List.replicate 11 demoPng) demoBody [demoP1] =
      { status := 500, product? := none,
        error? := some "Express default error handler", store := [demoP1] } ∧
    postProducts none (fun i => i) 9 9 [demoPng] demoBody [demoP1] =
      { status := 400, product? := none,
        error? := some "Number of images must be between 2 and 10",
        store := [demoP1] } :=
  ⟨rfl, rfl⟩

/-- C3 counterexample: the fileFilter's regex test is unanchored substring
containment, not allow-list membership.  The file a.jpgx with content type
image/jpeg is accepted and fully persisted by POST /api/images — blob on
disk and metadata record in the store — although its extension .jpgx is not
one of .jpeg, .jpg, .png. -/
theorem C3_counterexample :
    (postImages none 1 1 0 [] [] (some ⟨"a.jpgx", "image/jpeg", 4⟩)).store =
      [⟨1, "1-a.jpgx", "uploads/1-a.jpgx", 0⟩] ∧
    (postImages none 1 1 0 [] [] (some ⟨"a.jpgx", "image/jpeg", 4⟩)).fs =
      ["uploads/1-a.jpgx"] ∧
    (postImages none 1 1 0 [] [] (some ⟨"a.jpgx", "image/jpeg", 4⟩)).status = 200 ∧
    specAllowListExt "a.jpgx" = false :=
  ⟨rfl, rfl, rfl, rfl⟩

/-- C3 amended: a file within the size limit is persisted by the upload
middleware (blob written and, on POST /api/images, a metadata record saved)
exactly when the lowercased extension of its name and its declared content
type each contain one of jpeg, jpg, png as a substring; on a mismatch nothing
is persisted and the request fails (500 through the default error handler,
since the fileFilter error is not handled by any later layer). -/
theorem C3_regex_containment (env : Option String) (ts freshId now : Nat)
    (store : List ImageRec) (fs : List String) (f : IncomingFile)
    (hsz : f.size ≤ fileSizeLimit) :
    ((filetypesTest (toLowerStr (extname f.originalname)) &&
        filetypesTest f.mimetype) = true →
      postImages env ts freshId now store fs (some f) =
        { status := 200, message := "Image uploaded",
          image? := some ⟨freshId, genFilename ts f.originalname,
            uploadDirOf env ++ "/" ++ genFilename ts f.originalname, now⟩,
          url? := some ("/uploads/" ++ genFilename ts f.originalname),
          store := store ++ [⟨freshId, genFilename ts f.originalname,
            uploadDirOf env ++ "/" ++ genFilename ts f.originalname, now⟩],
          fs := (uploadDirOf env ++ "/" ++ genFilename ts f.originalname) :: fs }) ∧
    ((filetypesTest (toLowerStr (extname f.originalname)) &&
        filetypesTest f.mimetype) = false →
      (postImages env ts freshId now store fs (some f)).status = 500 ∧
      (postImages env ts freshId now store fs (some f)).store = store ∧
      (postImages env ts freshId now store fs (some f)).fs = fs) := by
  constructor
  · intro hacc
    have hff : fileFilter f = true := hacc
    simp [postImages, uploadSingle, hff, Nat.not_lt.mpr hsz]
  · intro hrej
    have hff : fileFilter f = false := hrej
    have hresp : routeErrorResponse postImagesPos UploadError.onlyImages =
        (500, "Express default error handler") := rfl
    simp [postImages, uploadSingle, hff, hresp]

theorem C3_witness :
    postImages none 1 1 0 [] [] (some ⟨"a.png", "image/png", 1⟩) =
      { status := 200, message := "Image uploaded",
        image? := some ⟨1, "1-a.png", "uploads/1-a.png", 0⟩,
        url? := some "/uploads/1-a.png",
        store := [⟨1, "1-a.png", "uploads/1-a.png", 0⟩],
        fs := ["uploads/1-a.png"] } := by
  have h := C3_regex_containment none 1 1 0 [] [] ⟨"a.png", "image/png", 1⟩ (by decide)
  simpa using h.1 (by decide)

/-- C4: the claim predicts a structured 400 distinguishing file too large,
and the error middleware at src/index.js:82-93 would indeed answer exactly
that — but it is registered before every route, and Express only dispatches
an error to handlers registered after the failing layer, so an oversized
upload is answered 500 by the default handler instead. -/
theorem C4_size_limit_eval :
    (postUploadsBlog none 7 [] (some ⟨"big.png", "image/png", 20 * 1024 * 1024 + 1⟩)).status = 500 ∧
    (postUploadsBlog none 7 [] (some ⟨"big.png", "image/png", 20 * 1024 * 1024 + 1⟩)).message =
      "Express default error handler" ∧
    multerErrorMiddleware UploadError.limitFileSize =
      MwAction.respond 400 "File too large. Maximum size is 20 MB." :=
  ⟨rfl, rfl, rfl⟩

/-- C5 counterexample: the claim says an empty Product collection is seeded
with exactly six sample products at process start, but connectDB — the whole
of the startup logic — inserts nothing: starting from an empty store, the
store after a successful startup is still empty, not six products. -/
theorem C5_counterexample :
    connectDB true ([] : List Product) = some [] ∧
    ¬ ∃ s : List Product, connectDB true [] = some s ∧ s.length = 6 := by
  refine ⟨rfl, ?_⟩
  rintro ⟨s, hs, hlen⟩
  have hnil : ([] : List Product) = s := by simpa [connectDB] using hs
  rw [← hnil] at hlen
  simp at hlen

/-- C5 amended: on process start the code only connects to the database (and
exits the process when the connection fails); it performs no seed insertion,
so the Product collection is returned unchanged by startup — trivially
idempotent across restarts. -/
theorem C5_startup_preserves_store (store : List Product) :
    connectDB true store = some store ∧ connectDB false store = none :=
  ⟨rfl, rfl⟩

/-- C6: deleting a product id absent from the store answers 404 and leaves
the store unchanged; deleting a present id answers 204 (empty body) and
removes the record, so a subsequent fetch-by-id of the same id answers 404. -/
theorem C6_delete_product (store : List Product) (id : Nat)
    (hnodup : (store.map Product.id).Nodup) :
    (findById store id = none → deleteProduct store id = (404, store)) ∧
    (∀ p, findById store id = some p →
      (deleteProduct store id).1 = 204 ∧
      getProductById (deleteProduct store id).2 id = (404, none)) := by
  constructor
  · intro h
    simp [deleteProduct, h]
  · intro p hp
    have hdel : (deleteProduct store id).2 = store.eraseP (fun q => q.id = id) := by
      simp [deleteProduct, hp]
    refine ⟨by simp [deleteProduct, hp], ?_⟩
    rw [hdel]
    have hnone := findById_eraseP id store hnodup
    simp [getProductById, hnone]

theorem C6_witness :
    ((deleteProduct [demoP1, demoP2] 1).1 = 204 ∧
      getProductById (deleteProduct [demoP1, demoP2] 1).2 1 = (404, none)) ∧
    deleteProduct [demoP1, demoP2] 3 = (404, [demoP1, demoP2]) :=
  ⟨(C6_delete_product [demoP1, demoP2] 1 (by decide)).2 demoP1 (by decide),
   (C6_delete_product [demoP1, demoP2] 3 (by decide)).1 (by decide)⟩

/-- C7: after a successful creation, fetching the product by the id of the
201 response returns 200 with exactly the created document — every field
equal, the server-assigned id and createdAt being the fresh id and the save
time. -/
theorem C7_create_fetch_roundtrip (env : Option String) (ts : Nat → Nat)
    (freshId now : Nat) (files : List IncomingFile) (b : CreateBody)
    (store : List Product) (p : Product)
    (h2 : 2 ≤ files.length) (h10 : files.length ≤ 10)
    (hok : ∀ f ∈ files, fileFilter f = true ∧ f.size ≤ fileSizeLimit)
    (hbuild : buildProduct freshId now (uploadNames ts files) b = some p)
    (hfresh : ∀ q ∈ store, q.id ≠ freshId) :
    postProducts env ts freshId now files b store =
      { status := 201, product? := some p, error? := none, store := store ++ [p] } ∧
    getProductById (store ++ [p]) freshId = (200, some p) ∧
    p.id = freshId ∧ p.createdAt = now := by
  have hpost := postProducts_ok env ts freshId now files b store p h2 h10 hok hbuild
  have hb := buildProduct_ok hbuild
  refine ⟨hpost, ?_, hb.2.1, hb.2.2.1⟩
  have hfind : findById (store ++ [p]) freshId = some p := by
    have := findById_append_fresh store p (fun q hq => by
      rw [hb.2.1]
      exact hfresh q hq)
    rwa [hb.2.1] at this
  simp [getProductById, hfind]

theorem C7_witness :
    postProducts none (fun i => 100 + i) 7 50 demoFiles demoBody [demoP1] =
      { status := 201, product? := some demoProd, error? := none,
        store := [demoP1] ++ [demoProd] } ∧
    getProductById ([demoP1] ++ [demoProd]) 7 = (200, some demoProd) ∧
    demoProd.id = 7 ∧ demoProd.createdAt = 50 :=
  C7_create_fetch_roundtrip none (fun i => 100 + i) 7 50 demoFiles demoBody
    [demoP1] demoProd (by decide) (by decide) (by decide) (by decide) (by decide)

/-- C8: the claim predicts a 500 when the referenced blob cannot be removed,
but the route sends its 200 body on line 563 in the same synchronous flow
that started the unlink; the failing callback's 500 write arrives after the
response is sent and cannot be delivered.  With the blob missing from disk
the metadata record is removed (as claimed) yet the response is 200 with
body Image deleted; lateWrite records the callback's dead second write. -/
theorem C8_missing_blob_eval :
    deleteImage "/app" [⟨1, "x.png", "uploads/x.png", 0⟩] [] 1 =
      { status := 200, message := "Image deleted", store := [], fs := [],
        lateWrite := true } :=
  rfl

/-- C9: an accepted upload is stored under the configured upload directory,
which exists afterwards (created when absent); its filename is the creation
timestamp, a dash, and the original filename, so uploads at distinct
timestamps never collide, whatever the original names. -/
theorem C9_filename_scheme (ts1 ts2 : Nat) (a b : String) (env : Option String)
    (dirs : List String) (h : ts1 ≠ ts2) :
    genFilename ts1 a = Nat.repr ts1 ++ "-" ++ a ∧
    genFilename ts1 a ≠ genFilename ts2 b ∧
    (destination env dirs).1 = uploadDirOf env ∧
    (destination env dirs).1 ∈ (destination env dirs).2 := by
  refine ⟨rfl, fun heq => h (genFilename_ts_inj heq), rfl, ?_⟩
  cases hc : dirs.contains (uploadDirOf env) with
  | true =>
    have hmem : uploadDirOf env ∈ dirs := List.elem_iff.mp hc
    simp only [destination, hc, if_true]
    exact hmem
  | false =>
    simp only [destination, hc, Bool.false_eq_true, if_false]
    exact List.mem_cons_self _ _

theorem C9_witness :
    genFilename 1 "a.png" = Nat.repr 1 ++ "-" ++ "a.png" ∧
    genFilename 1 "a.png" ≠ genFilename 2 "a.png" ∧
    (destination none []).1 = uploadDirOf none ∧
    (destination none []).1 ∈ (destination none []).2 :=
  C9_filename_scheme 1 2 "a.png" "a.png" none [] (by decide)

/-- C10: for a successful creation, the stored isNew flag is true exactly
when the isNew form field is present with a truthy (non-empty) string value;
in particular the textual value "false" yields isNew = true. -/
theorem C10_isNew_truthy (freshId now : Nat) (images : List String)
    (b : CreateBody) (p : Product)
    (hbuild : buildProduct freshId now images b = some p) :
    (p.isNew = true ↔ ∃ s, b.isNew = some s ∧ s ≠ "") ∧
    (b.isNew = some "false" → p.isNew = true) := by
  have hb := (buildProduct_ok hbuild).2.2.2
  constructor
  · rw [hb]
    cases hN : b.isNew with
    | none => simp [jsTruthy]
    | some s =>
      constructor
      · intro hs
        refine ⟨s, rfl, ?_⟩
        simp only [jsTruthy, Bool.not_eq_true'] at hs
        exact beq_eq_false_iff_ne.mp hs
      · rintro ⟨t, ht, hne⟩
        injection ht with ht
        subst ht
        simp only [jsTruthy, Bool.not_eq_true']
        exact beq_eq_false_iff_ne.mpr hne
  · intro hF
    rw [hb, hF]
    rfl

theorem C10_witness :
    (demoProd.isNew = true ↔ ∃ s, demoBody.isNew = some s ∧ s ≠ "") ∧
    (demoBody.isNew = some "false" → demoProd.isNew = true) :=
  C10_isNew_truthy 7 50 ["100-front.png", "101-side.jpg"] demoBody demoProd rfl

end Sunglasses
